import Mathlib

/-!
Shallow embedding of the value-format engine of the spreadsheet-ods
repository (src/src/format.rs): the `ValueFormat` / `FormatPart` data
model, the part constructors, and the five rendering entry points
`format_boolean`, `format_float`, `format_str`, `format_datetime` and
`format_time_duration`.  Machine integers become `Nat` / `Int`, the
float argument of `format_float` becomes `Rat`, fallible constructors
(Rust assert) become `Option`, and the chrono formatting facility the
code delegates to is embedded by explicit calendar arithmetic.
-/

namespace SpreadsheetOds

/-! ## Decimal digit printing (the behaviour of Rust to_string on integers) -/

/-- One decimal digit as a character. -/
def digitChar (n : Nat) : Char :=
  match n % 10 with
  | 0 => '0' | 1 => '1' | 2 => '2' | 3 => '3' | 4 => '4'
  | 5 => '5' | 6 => '6' | 7 => '7' | 8 => '8' | _ => '9'

/-- Decimal digits, fuelled so that reduction is structural. -/
def natToDigitsAux (fuel : Nat) (n : Nat) : List Char :=
  match fuel with
  | 0 => []
  | fuel + 1 =>
    if n < 10 then [digitChar n]
    else natToDigitsAux fuel (n / 10) ++ [digitChar (n % 10)]

/-- Decimal digits of a natural number, most significant first
(`n + 1` units of fuel always suffice). -/
def natToDigits (n : Nat) : List Char := natToDigitsAux (n + 1) n

/-- Decimal rendering of a natural number. -/
def natToString10 (n : Nat) : String := String.mk (natToDigits n)

/-- Decimal rendering of an integer, as Rust i64 to_string. -/
def intToString10 (i : Int) : String :=
  if i < 0 then "-" ++ natToString10 i.natAbs else natToString10 i.natAbs

/-- Zero-pad a digit list on the left to width `k`. -/
def padLeftZeros (k : Nat) (s : List Char) : List Char :=
  List.replicate (k - s.length) '0' ++ s

/-- Render a natural number zero-padded to two digits (chrono specifier without dash). -/
def pad2 (n : Nat) : String :=
  if n < 10 then "0" ++ natToString10 n else natToString10 n

/-- Render a natural number zero-padded to four digits. -/
def pad4 (n : Nat) : String := String.mk (padLeftZeros 4 (natToDigits n))

/-! ## Parsing helpers -/

/-- Rust usize::from_str: optional leading plus sign, one or more ASCII
digits, value bounded by the machine word. -/
def parseUsize (s : String) : Option Nat :=
  let t := match s.toList with
    | '+' :: rest => rest
    | l => l
  if t ≠ [] ∧ t.all Char.isDigit then
    let n := t.foldl (fun a c => a * 10 + (c.toNat - 48)) 0
    if n < 2 ^ 64 then some n else none
  else none

/-- Rust bool::from_str: exactly the strings true and false. -/
def parseBool (s : String) : Option Bool :=
  if s = "true" then some true
  else if s = "false" then some false
  else none

/-! ## Fixed-point rendering of the float argument

`format_float` renders a float with Rust `{:.dec}` formatting, which
rounds the exact value of the float to `dec` fractional digits with
round-half-to-even.  The float is embedded as a rational number. -/

/-- Round the exact fraction `A / d` (with `d` positive) to the nearest
natural number, ties to the even one (the rounding used by Rust
fixed-point float formatting). -/
def roundHalfEvenScaled (A d : Nat) : Nat :=
  let f := A / d
  let r := A % d
  if 2 * r < d then f
  else if d < 2 * r then f + 1
  else if f % 2 = 0 then f else f + 1

/-- Rust `{:.dec}` fixed-point formatting of a float value `q`: sign,
integer part, and exactly `dec` fractional digits (no decimal dot when
`dec = 0`); the scaled magnitude `|q| * 10 ^ dec` is rounded half to
even, computed on the numerator and denominator directly. -/
def fmtFixed (dec : Nat) (q : ℚ) : String :=
  let n : Nat := roundHalfEvenScaled (q.num.natAbs * 10 ^ dec) q.den
  let ip : Nat := n / 10 ^ dec
  let fp : Nat := n % 10 ^ dec
  let sign : String := if q.num < 0 then "-" else ""
  if dec = 0 then sign ++ natToString10 ip
  else sign ++ natToString10 ip ++ "." ++ String.mk (padLeftZeros dec (natToDigits fp))

/-- Number of characters after the last decimal dot of a string
(0 when no dot occurs). -/
def digitsAfterDot (s : String) : Nat :=
  if ('.') ∈ s.toList then (s.toList.reverse.takeWhile (fun c => c ≠ '.')).length
  else 0

/-- Number of decimal digits of the numerator of the mantissa view used
by the scientific renderer below. -/
def floorLog10 (q : ℚ) : ℤ :=
  let a : ℤ := (natToDigits q.num.natAbs).length
  let b : ℤ := (natToDigits q.den).length
  let e0 : ℤ := a - b
  if |q| < (10 : ℚ) ^ e0 then e0 - 1
  else if (10 : ℚ) ^ (e0 + 1) ≤ |q| then e0 + 1
  else e0

/-- Fractional decimal digits of `x` (with `0 ≤ x < 1`), up to `k` of them,
trailing zeros trimmed. -/
def fracDigits : Nat → ℚ → List Char
  | 0, _ => []
  | k + 1, x =>
    let d : ℤ := ⌊x * 10⌋
    let rest := fracDigits k (x * 10 - d)
    if d = 0 ∧ rest = [] then [] else digitChar d.toNat :: rest

/-- Rust `{:e}` scientific formatting of a float value, embedded for the
rational model: mantissa in [1, 10) printed to at most 17 significant
digits, then the exponent. -/
def sciFmt (q : ℚ) : String :=
  if q = 0 then "0e0"
  else
    let e : ℤ := floorLog10 q
    let m : ℚ := |q| / (10 : ℚ) ^ e
    let sign : String := if q < 0 then "-" else ""
    let lead : ℤ := ⌊m⌋
    let frac : List Char := fracDigits 16 (m - lead)
    let mantissa : String :=
      if frac = [] then natToString10 lead.toNat
      else natToString10 lead.toNat ++ "." ++ String.mk frac
    sign ++ mantissa ++ "e" ++ intToString10 e

/-! ## The attribute-map collaborator -/

/-- Modelled from the spec: the generic attribute-map storage
(crate module attrmap2, not under src/) holds named string properties;
it offers get/set of a string value by string key with
presence-or-absence semantics. -/
def AttrMap2 : Type := List (String × String)

instance : DecidableEq AttrMap2 := by
  unfold AttrMap2
  infer_instance

/-- The empty attribute map (Default::default()). -/
def AttrMap2.empty : AttrMap2 := []

/-- Look up an attribute by key. -/
def AttrMap2.attr (m : AttrMap2) (k : String) : Option String :=
  match m.find? (fun e => e.1 = k) with
  | some e => some e.2
  | none => none

/-- Set an attribute, replacing any existing binding of the same key. -/
def AttrMap2.set_attr (m : AttrMap2) (k v : String) : AttrMap2 :=
  m.filter (fun e => ¬ e.1 = k) ++ [(k, v)]

/-! ## Calendar arithmetic (embedding of the chrono facility used by
format_datetime via strftime specifiers) -/

/-- The date-time value handed to `format_datetime`
(chrono NaiveDateTime, split into its calendar fields). -/
structure NaiveDateTime where
  year : Int
  month : Nat
  day : Nat
  hour : Nat
  minute : Nat
  second : Nat
  deriving DecidableEq

/-- Leap year in the proleptic Gregorian calendar. -/
def isLeapYear (y : Int) : Bool := (y % 4 = 0 && y % 100 ≠ 0) || y % 400 = 0

/-- Days from the civil epoch 1970-01-01 to the given date
(standard civil-from-days inverse, proleptic Gregorian). -/
def daysFromCivil (y : Int) (m d : Nat) : Int :=
  let y1 : Int := if m ≤ 2 then y - 1 else y
  let era : Int := Int.fdiv y1 400
  let yoe : Int := y1 - era * 400
  let mp : Int := if m ≤ 2 then (m : Int) + 9 else (m : Int) - 3
  let doy : Int := (153 * mp + 2) / 5 + (d : Int) - 1
  let doe : Int := yoe * 365 + yoe / 4 - yoe / 100 + doy
  era * 146097 + doe - 719468

/-- Weekday index of a date-time, 0 = Sunday .. 6 = Saturday. -/
def weekdayIdx (d : NaiveDateTime) : Nat :=
  ((daysFromCivil d.year d.month d.day + 4).emod 7).toNat

/-- Full weekday name (chrono specifier A). -/
def weekdayNameFull (i : Nat) : String :=
  match i with
  | 0 => "Sunday" | 1 => "Monday" | 2 => "Tuesday" | 3 => "Wednesday"
  | 4 => "Thursday" | 5 => "Friday" | 6 => "Saturday" | _ => ""

/-- Abbreviated weekday name (chrono specifier a). -/
def weekdayNameAbbrev (i : Nat) : String :=
  match i with
  | 0 => "Sun" | 1 => "Mon" | 2 => "Tue" | 3 => "Wed"
  | 4 => "Thu" | 5 => "Fri" | 6 => "Sat" | _ => ""

/-- Full month name (chrono specifier B). -/
def monthNameFull (m : Nat) : String :=
  match m with
  | 1 => "January" | 2 => "February" | 3 => "March" | 4 => "April"
  | 5 => "May" | 6 => "June" | 7 => "July" | 8 => "August"
  | 9 => "September" | 10 => "October" | 11 => "November" | 12 => "December"
  | _ => ""

/-- Abbreviated month name (chrono specifier b). -/
def monthNameAbbrev (m : Nat) : String :=
  match m with
  | 1 => "Jan" | 2 => "Feb" | 3 => "Mar" | 4 => "Apr"
  | 5 => "May" | 6 => "Jun" | 7 => "Jul" | 8 => "Aug"
  | 9 => "Sep" | 10 => "Oct" | 11 => "Nov" | 12 => "Dec"
  | _ => ""

/-- Days of the year before the first of month `m` in a common year. -/
def cumDaysBeforeMonth (m : Nat) : Nat :=
  match m with
  | 1 => 0 | 2 => 31 | 3 => 59 | 4 => 90 | 5 => 120 | 6 => 151
  | 7 => 181 | 8 => 212 | 9 => 243 | 10 => 273 | 11 => 304 | 12 => 334
  | _ => 0

/-- Zero-based ordinal day of the year of a date-time. -/
def dayOfYear0 (d : NaiveDateTime) : Nat :=
  cumDaysBeforeMonth d.month
    + (if isLeapYear d.year ∧ 2 < d.month then 1 else 0)
    + d.day - 1

/-- Week number of the year with Monday as first day of week
(chrono specifier W): days before the first Monday are week 0. -/
def weekOfYearMon (d : NaiveDateTime) : Nat :=
  let fromMonday : Nat := (weekdayIdx d + 6) % 7
  (dayOfYear0 d + 7 - fromMonday) / 7

/-- Hour on the 12-hour clock (chrono specifier I): 1..12. -/
def hour12 (h : Nat) : Nat :=
  if h % 12 = 0 then 12 else h % 12

/-- chrono specifier Y: the year, zero-padded to four digits for
common years. -/
def yearLongString (y : Int) : String :=
  if 0 ≤ y ∧ y < 10000 then pad4 y.toNat else intToString10 y

/-- chrono specifier y: the year modulo 100, zero-padded to two digits. -/
def yearShortString (y : Int) : String := pad2 ((y.emod 100).toNat)

/-- chrono specifier p: the meridiem indicator of the hour. -/
def amPmString (h : Nat) : String := if h < 12 then "AM" else "PM"

/-! ## The format model: per-part flags and types (src/src/format.rs) -/

/-- Modelled from the spec: ValueType is declared at the crate root
(not under src/); the spec lists the value kinds Boolean, Number,
Percentage, Currency, DateTime, TimeDuration, Text and a sentinel
empty kind. -/
inductive ValueType where
  | Empty
  | Boolean
  | Number
  | Percentage
  | Currency
  | Text
  | DateTime
  | TimeDuration
  deriving DecidableEq

/-- StyleOrigin: which document subtree the format belongs to. -/
inductive StyleOrigin where
  | Content
  | Styles
  deriving DecidableEq

/-- StyleUse: usage classification of the style. -/
inductive StyleUse where
  | Default
  | Named
  | Automatic
  deriving DecidableEq

/-- FormatPartType: the closed tag identifying the role of a part. -/
inductive FormatPartType where
  | Number
  | FillCharacter
  | ScientificNumber
  | Fraction
  | CurrencySymbol
  | Day
  | Month
  | Year
  | Era
  | DayOfWeek
  | WeekOfYear
  | Quarter
  | Hours
  | Minutes
  | Seconds
  | AmPm
  | Boolean
  | Text
  | TextContent
  deriving DecidableEq

/-- FormatNumberStyle: short or long flag for several part types. -/
inductive FormatNumberStyle where
  | Short
  | Long
  deriving DecidableEq

/-- Display impl for FormatNumberStyle. -/
def FormatNumberStyle.toString : FormatNumberStyle → String
  | .Short => "short"
  | .Long => "long"

/-- FormatTextual: numeric or textual month flag. -/
inductive FormatTextual where
  | Numeric
  | Textual
  deriving DecidableEq

/-- Display impl for FormatTextual. -/
def FormatTextual.toString : FormatTextual → String
  | .Numeric => "false"
  | .Textual => "true"

/-- FormatMonth: possessive form flag for month parts. -/
inductive FormatMonth where
  | Nominativ
  | Possessiv
  deriving DecidableEq

/-- Display impl for FormatMonth. -/
def FormatMonth.toString : FormatMonth → String
  | .Nominativ => "false"
  | .Possessiv => "true"

/-- FormatCalendar: calendar systems, with a distinguished default. -/
inductive FormatCalendar where
  | Default
  | Gregorian
  | Gengou
  | Roc
  | Hanja
  | Hijri
  | Jewish
  | Buddhist
  deriving DecidableEq

/-- Display impl for FormatCalendar (the default renders as the empty string). -/
def FormatCalendar.toString : FormatCalendar → String
  | .Gregorian => "gregorian"
  | .Gengou => "gengou"
  | .Roc => "ROC"
  | .Hanja => "hanja"
  | .Hijri => "hijri"
  | .Jewish => "jewish"
  | .Buddhist => "buddhist"
  | .Default => ""

/-! ## Locale collaborator (icu_locid) -/

/-- Modelled from the spec: a region subtag of the locale collaborator,
two ASCII letters (stored uppercase) or three ASCII digits. -/
structure Region where
  code : String
  deriving DecidableEq

/-- Serialized form of a region subtag. -/
def Region.toString (r : Region) : String := r.code

/-- Parse a region subtag, as the locale collaborator FromStr. -/
def Region.parse (s : String) : Option Region :=
  if s.length = 2 ∧ s.toList.all Char.isAlpha then
    some ⟨String.mk (s.toList.map Char.toUpper)⟩
  else if s.length = 3 ∧ s.toList.all Char.isDigit then some ⟨s⟩
  else none

/-- Modelled from the spec: a language subtag of the locale
collaborator, two or three ASCII letters (stored lowercase). -/
structure Language where
  code : String
  deriving DecidableEq

/-- Serialized form of a language subtag. -/
def Language.toString (l : Language) : String := l.code

/-- Parse a language subtag, as the locale collaborator FromStr. -/
def Language.parse (s : String) : Option Language :=
  if (s.length = 2 ∨ s.length = 3) ∧ s.toList.all Char.isAlpha then
    some ⟨String.mk (s.toList.map Char.toLower)⟩
  else none

/-- Modelled from the spec: a script subtag of the locale collaborator,
four ASCII letters (stored in title case). -/
structure Script where
  code : String
  deriving DecidableEq

/-- Serialized form of a script subtag. -/
def Script.toString (s : Script) : String := s.code

/-- Parse a script subtag, as the locale collaborator FromStr. -/
def Script.parse (s : String) : Option Script :=
  if s.length = 4 ∧ s.toList.all Char.isAlpha then
    some ⟨String.mk ((s.toList.map Char.toUpper).take 1
      ++ (s.toList.map Char.toLower).drop 1)⟩
  else none

/-- Modelled from the spec: a locale identifier decomposable into
language, region and script subtags, each independently optional
except language. -/
structure Locale where
  language : Language
  region : Option Region
  script : Option Script
  deriving DecidableEq

/-- Modelled from the spec: a conditional-style override
(condition and alternate style), consumed by a collaborator
outside this engine. -/
structure StyleMap where
  condition : String
  applied_style : String
  base_cell : String
  deriving DecidableEq

/-! ## FormatPart -/

/-- Rust Display of a float attribute value (integer part, then the
fractional decimal digits with trailing zeros trimmed). -/
def displayFloatString (q : ℚ) : String :=
  let sign : String := if q < 0 then "-" else ""
  let a : ℚ := |q|
  let ip : Nat := (⌊a⌋).toNat
  let frac : List Char := fracDigits 17 (a - ⌊a⌋)
  if frac = [] then sign ++ natToString10 ip
  else sign ++ natToString10 ip ++ "." ++ String.mk frac

/-- One structural part of a value format. -/
structure FormatPart where
  part_type : FormatPartType
  attr : AttrMap2
  content : Option String
  deriving DecidableEq

/-- FormatPart::new. -/
def FormatPart.new (ftype : FormatPartType) : FormatPart :=
  { part_type := ftype, attr := AttrMap2.empty, content := none }

/-- FormatPart::new_with_content. -/
def FormatPart.new_with_content (ftype : FormatPartType) (content : String) : FormatPart :=
  { part_type := ftype, attr := AttrMap2.empty, content := some content }

/-- FormatPart::set_attr. -/
def FormatPart.set_attr (p : FormatPart) (name value : String) : FormatPart :=
  { p with attr := p.attr.set_attr name value }

/-- The attr-def method of FormatPart (renamed attr_default here): a
property value, or the given default. -/
def FormatPart.attr_default (p : FormatPart) (name d0 : String) : String :=
  match p.attr.attr name with
  | some v => v
  | none => d0

/-- FormatPart::set_content. -/
def FormatPart.set_content (p : FormatPart) (content : String) : FormatPart :=
  { p with content := some content }

/-- FormatPart::set_part_type. -/
def FormatPart.set_part_type (p : FormatPart) (ftype : FormatPartType) : FormatPart :=
  { p with part_type := ftype }

/-- FormatPart::new_number. -/
def FormatPart.new_number (decimal_places : Nat) (grouping : Bool)
    (min_decimal_places mininteger_digits : Nat)
    (display_factor : Option ℚ) (decimal_replacement : Option Char) : FormatPart :=
  let p := FormatPart.new FormatPartType.Number
  let p := p.set_attr "number:min-integer-digits" (natToString10 1)
  let p := p.set_attr "number:decimal-places" (natToString10 decimal_places)
  let p := match decimal_replacement with
    | some c => p.set_attr "number:decimal-replacement" (String.mk [c])
    | none => p
  let p := match display_factor with
    | some f => p.set_attr "number:display-factor" (displayFloatString f)
    | none => p
  let p := p.set_attr "number:mininteger-digits" (natToString10 mininteger_digits)
  let p := p.set_attr "number:min-decimal-places" (natToString10 min_decimal_places)
  if grouping then p.set_attr "number:grouping" "true" else p

/-- FormatPart::new_fill_character. -/
def FormatPart.new_fill_character (fill_character : Char) : FormatPart :=
  (FormatPart.new FormatPartType.FillCharacter).set_content (String.mk [fill_character])

/-- FormatPart::new_fraction. -/
def FormatPart.new_fraction (denominatorvalue : Nat)
    (min_denominator_digits min_integer_digits min_numerator_digits : Nat)
    (grouping : Bool) (max_denominator_value : Option Nat) : FormatPart :=
  let p := FormatPart.new FormatPartType.Fraction
  let p := p.set_attr "number:denominator-value" (natToString10 denominatorvalue)
  let p := match max_denominator_value with
    | some v => p.set_attr "number:max-denominator-value" (natToString10 v)
    | none => p
  let p := p.set_attr "number:min-denominator-digits" (natToString10 min_denominator_digits)
  let p := p.set_attr "number:min-integer-digits" (natToString10 min_integer_digits)
  let p := p.set_attr "number:min-numerator-digits" (natToString10 min_numerator_digits)
  if grouping then p.set_attr "number:grouping" "true" else p

/-- FormatPart::new_scientific_number. -/
def FormatPart.new_scientific_number (decimal_places : Nat) (grouping : Bool)
    (min_exponentdigits min_integer_digits : Option Nat) : FormatPart :=
  let p := FormatPart.new FormatPartType.ScientificNumber
  let p := p.set_attr "number:decimal-places" (natToString10 decimal_places)
  let p := if grouping then p.set_attr "number:grouping" "true" else p
  let p := match min_exponentdigits with
    | some v => p.set_attr "number:min-exponentdigits" (natToString10 v)
    | none => p
  match min_integer_digits with
  | some v => p.set_attr "number:min-integer-digits" (natToString10 v)
  | none => p

/-- FormatPart::new_currency_symbol. -/
def FormatPart.new_currency_symbol (locale : Locale) (symbol : String) : FormatPart :=
  let p := FormatPart.new_with_content FormatPartType.CurrencySymbol symbol
  let p := p.set_attr "number:language" locale.language.toString
  match locale.region with
  | some region => p.set_attr "number:country" region.toString
  | none => p

/-- FormatPart::new_day. -/
def FormatPart.new_day (style : FormatNumberStyle) (calendar : FormatCalendar) : FormatPart :=
  let p := FormatPart.new FormatPartType.Day
  let p := p.set_attr "number:style" style.toString
  if calendar ≠ FormatCalendar.Default then
    p.set_attr "number:calendar" calendar.toString
  else p

/-- FormatPart::new_month: note that the possessive-form attribute is
written when the flag is Nominativ. -/
def FormatPart.new_month (style : FormatNumberStyle) (textual : FormatTextual)
    (possessive_form : FormatMonth) (calendar : FormatCalendar) : FormatPart :=
  let p := FormatPart.new FormatPartType.Month
  let p := p.set_attr "number:style" style.toString
  let p := p.set_attr "number:textual" textual.toString
  let p := if possessive_form ≠ FormatMonth.Possessiv then
      p.set_attr "number:possessive-form" "true"
    else p
  if calendar ≠ FormatCalendar.Default then
    p.set_attr "number:calendar" calendar.toString
  else p

/-- FormatPart::new_year. -/
def FormatPart.new_year (style : FormatNumberStyle) (calendar : FormatCalendar) : FormatPart :=
  let p := FormatPart.new FormatPartType.Year
  let p := p.set_attr "number:style" style.toString
  if calendar ≠ FormatCalendar.Default then
    p.set_attr "number:calendar" calendar.toString
  else p

/-- FormatPart::new_era. -/
def FormatPart.new_era (number : FormatNumberStyle) (calendar : FormatCalendar) : FormatPart :=
  let p := FormatPart.new FormatPartType.Era
  let p := p.set_attr "number:style" number.toString
  if calendar ≠ FormatCalendar.Default then
    p.set_attr "number:calendar" calendar.toString
  else p

/-- FormatPart::new_day_of_week. -/
def FormatPart.new_day_of_week (style : FormatNumberStyle) (calendar : FormatCalendar) :
    FormatPart :=
  let p := FormatPart.new FormatPartType.DayOfWeek
  let p := p.set_attr "number:style" style.toString
  if calendar ≠ FormatCalendar.Default then
    p.set_attr "number:calendar" calendar.toString
  else p

/-- FormatPart::new_week_of_year. -/
def FormatPart.new_week_of_year (calendar : FormatCalendar) : FormatPart :=
  let p := FormatPart.new FormatPartType.WeekOfYear
  if calendar ≠ FormatCalendar.Default then
    p.set_attr "number:calendar" calendar.toString
  else p

/-- FormatPart::new_quarter. -/
def FormatPart.new_quarter (style : FormatNumberStyle) (calendar : FormatCalendar) : FormatPart :=
  let p := FormatPart.new FormatPartType.Quarter
  let p := p.set_attr "number:style" style.toString
  if calendar ≠ FormatCalendar.Default then
    p.set_attr "number:calendar" calendar.toString
  else p

/-- FormatPart::new_hours. -/
def FormatPart.new_hours (style : FormatNumberStyle) : FormatPart :=
  (FormatPart.new FormatPartType.Hours).set_attr "number:style" style.toString

/-- FormatPart::new_minutes. -/
def FormatPart.new_minutes (style : FormatNumberStyle) : FormatPart :=
  (FormatPart.new FormatPartType.Minutes).set_attr "number:style" style.toString

/-- FormatPart::new_seconds. -/
def FormatPart.new_seconds (style : FormatNumberStyle) (decimal_places : Nat) : FormatPart :=
  ((FormatPart.new FormatPartType.Seconds).set_attr "number:style" style.toString).set_attr
    "number:decimal-places" (natToString10 decimal_places)

/-- FormatPart::new_am_pm. -/
def FormatPart.new_am_pm : FormatPart := FormatPart.new FormatPartType.AmPm

/-- FormatPart::new_boolean. -/
def FormatPart.new_boolean : FormatPart := FormatPart.new FormatPartType.Boolean

/-- FormatPart::new_text. -/
def FormatPart.new_text (t : String) : FormatPart :=
  FormatPart.new_with_content FormatPartType.Text t

/-- FormatPart::new_text_content. -/
def FormatPart.new_text_content : FormatPart := FormatPart.new FormatPartType.TextContent

/-! ## Per-part rendering (FormatPart::format_*; each returns the chunk
appended to the output buffer) -/

/-- FormatPart::format_boolean: contribution of one part for a boolean
value; parts of other types contribute nothing. -/
def FormatPart.format_boolean (p : FormatPart) (b : Bool) : String :=
  match p.part_type with
  | FormatPartType.Boolean => if b then "true" else "false"
  | FormatPartType.Text =>
    match p.content with
    | some content => content
    | none => ""
  | _ => ""

/-- FormatPart::format_float: contribution of one part for a float
value (embedded as a rational); parts of other types contribute nothing. -/
def FormatPart.format_float (p : FormatPart) (f : ℚ) : String :=
  match p.part_type with
  | FormatPartType.Number =>
    match parseUsize (p.attr_default "number:decimal-places" "0") with
    | some dec => fmtFixed dec f
    | none => ""
  | FormatPartType.ScientificNumber => sciFmt f
  | FormatPartType.CurrencySymbol =>
    match p.content with
    | some content => content
    | none => ""
  | FormatPartType.Text =>
    match p.content with
    | some content => content
    | none => ""
  | _ => ""

/-- FormatPart::format_str: contribution of one part for a string
value; parts of other types contribute nothing. -/
def FormatPart.format_str (p : FormatPart) (s : String) : String :=
  match p.part_type with
  | FormatPartType.TextContent => s
  | FormatPartType.Text =>
    match p.content with
    | some content => content
    | none => ""
  | _ => ""

/-- FormatPart::format_datetime: contribution of one part for a
date-time value, with the h12 flag precomputed by the caller; uses the
chrono strftime specifiers embedded above. -/
def FormatPart.format_datetime (p : FormatPart) (d : NaiveDateTime) (h12 : Bool) : String :=
  match p.part_type with
  | FormatPartType.Day =>
    let is_long := p.attr_default "number:style" "" = "long"
    if is_long then pad2 d.day else natToString10 d.day
  | FormatPartType.Month =>
    let is_long := p.attr_default "number:style" "" = "long"
    let is_text := p.attr_default "number:textual" "" = "true"
    if is_text then
      if is_long then monthNameAbbrev d.month else monthNameFull d.month
    else
      if is_long then pad2 d.month else natToString10 d.month
  | FormatPartType.Year =>
    let is_long := p.attr_default "number:style" "" = "long"
    if is_long then yearLongString d.year else yearShortString d.year
  | FormatPartType.DayOfWeek =>
    let is_long := p.attr_default "number:style" "" = "long"
    if is_long then weekdayNameFull (weekdayIdx d) else weekdayNameAbbrev (weekdayIdx d)
  | FormatPartType.WeekOfYear =>
    let is_long := p.attr_default "number:style" "" = "long"
    if is_long then pad2 (weekOfYearMon d) else natToString10 (weekOfYearMon d)
  | FormatPartType.Hours =>
    let is_long := p.attr_default "number:style" "" = "long"
    if ¬ h12 then
      if is_long then pad2 d.hour else natToString10 d.hour
    else
      if is_long then pad2 (hour12 d.hour) else natToString10 (hour12 d.hour)
  | FormatPartType.Minutes =>
    let is_long := p.attr_default "number:style" "" = "long"
    if is_long then pad2 d.minute else natToString10 d.minute
  | FormatPartType.Seconds =>
    let is_long := p.attr_default "number:style" "" = "long"
    if is_long then pad2 d.second else natToString10 d.second
  | FormatPartType.AmPm => amPmString d.hour
  | FormatPartType.Text =>
    match p.content with
    | some content => content
    | none => ""
  | _ => ""

/-- The elapsed-time value handed to format_time_duration
(chrono Duration, embedded as a signed number of whole seconds). -/
structure Duration where
  secs : Int
  deriving DecidableEq

/-- chrono Duration::num_hours: total whole hours (i64 division
truncates toward zero). -/
def Duration.num_hours (d : Duration) : Int := d.secs.tdiv 3600

/-- chrono Duration::num_minutes: total whole minutes. -/
def Duration.num_minutes (d : Duration) : Int := d.secs.tdiv 60

/-- chrono Duration::num_seconds: total whole seconds. -/
def Duration.num_seconds (d : Duration) : Int := d.secs

/-- FormatPart::format_time_duration: contribution of one part for an
elapsed-time value; parts of other types contribute nothing (Rust i64
remainder truncates toward zero). -/
def FormatPart.format_time_duration (p : FormatPart) (d : Duration) : String :=
  match p.part_type with
  | FormatPartType.Hours => intToString10 d.num_hours
  | FormatPartType.Minutes => intToString10 (d.num_minutes.tmod 60)
  | FormatPartType.Seconds => intToString10 (d.num_seconds.tmod 60)
  | FormatPartType.Text =>
    match p.content with
    | some content => content
    | none => ""
  | _ => ""

/-! ## ValueFormat -/

/-- Actual textual formatting of values. -/
structure ValueFormat where
  name : String
  v_type : ValueType
  origin : StyleOrigin
  styleuse : StyleUse
  attr : AttrMap2
  textstyle : AttrMap2
  parts : List FormatPart
  stylemaps : Option (List StyleMap)
  deriving DecidableEq

/-- ValueFormat::new: empty, typed Text. -/
def ValueFormat.new : ValueFormat :=
  { name := ""
    v_type := ValueType.Text
    origin := StyleOrigin.Styles
    styleuse := StyleUse.Default
    attr := AttrMap2.empty
    textstyle := AttrMap2.empty
    parts := []
    stylemaps := none }

/-- ValueFormat::set_name. -/
def ValueFormat.set_name (vf : ValueFormat) (name : String) : ValueFormat :=
  { vf with name := name }

/-- ValueFormat::set_title: writes the number:title attribute. -/
def ValueFormat.set_title (vf : ValueFormat) (title : String) : ValueFormat :=
  { vf with attr := vf.attr.set_attr "number:title" title }

/-- ValueFormat::title. -/
def ValueFormat.title (vf : ValueFormat) : Option String :=
  vf.attr.attr "number:title"

/-- ValueFormat::set_display_name: as written, this stores the display
name under the number:country attribute. -/
def ValueFormat.set_display_name (vf : ValueFormat) (name : String) : ValueFormat :=
  { vf with attr := vf.attr.set_attr "number:country" name }

/-- ValueFormat::display_name: reads the number:country attribute. -/
def ValueFormat.display_name (vf : ValueFormat) : Option String :=
  vf.attr.attr "number:country"

/-- ValueFormat::set_country: writes the number:country attribute. -/
def ValueFormat.set_country (vf : ValueFormat) (country : Region) : ValueFormat :=
  { vf with attr := vf.attr.set_attr "number:country" country.toString }

/-- ValueFormat::country: parses the number:country attribute back,
silently absent on parse failure. -/
def ValueFormat.country (vf : ValueFormat) : Option Region :=
  match vf.attr.attr "number:country" with
  | none => none
  | some v => Region.parse v

/-- ValueFormat::set_language: writes the number:language attribute. -/
def ValueFormat.set_language (vf : ValueFormat) (language : Language) : ValueFormat :=
  { vf with attr := vf.attr.set_attr "number:language" language.toString }

/-- ValueFormat::language. -/
def ValueFormat.language (vf : ValueFormat) : Option Language :=
  match vf.attr.attr "number:language" with
  | none => none
  | some v => Language.parse v

/-- ValueFormat::set_script: writes the number:script attribute. -/
def ValueFormat.set_script (vf : ValueFormat) (script : Script) : ValueFormat :=
  { vf with attr := vf.attr.set_attr "number:script" script.toString }

/-- ValueFormat::script. -/
def ValueFormat.script (vf : ValueFormat) : Option Script :=
  match vf.attr.attr "number:script" with
  | none => none
  | some v => Script.parse v

/-- ValueFormat::set_transliteration_country. -/
def ValueFormat.set_transliteration_country (vf : ValueFormat) (country : Region) :
    ValueFormat :=
  { vf with attr := vf.attr.set_attr "number:transliteration-country" country.toString }

/-- ValueFormat::transliteration_country. -/
def ValueFormat.transliteration_country (vf : ValueFormat) : Option Region :=
  match vf.attr.attr "number:transliteration-country" with
  | none => none
  | some v => Region.parse v

/-- ValueFormat::set_transliteration_language. -/
def ValueFormat.set_transliteration_language (vf : ValueFormat) (language : Language) :
    ValueFormat :=
  { vf with attr := vf.attr.set_attr "number:transliteration-language" language.toString }

/-- ValueFormat::transliteration_language. -/
def ValueFormat.transliteration_language (vf : ValueFormat) : Option Language :=
  match vf.attr.attr "number:transliteration-language" with
  | none => none
  | some v => Language.parse v

/-- ValueFormat::set_transliteration_format. -/
def ValueFormat.set_transliteration_format (vf : ValueFormat) (format : Char) : ValueFormat :=
  { vf with attr := vf.attr.set_attr "number:transliteration-format" (String.mk [format]) }

/-- ValueFormat::transliteration_format: the first character of the slot. -/
def ValueFormat.transliteration_format (vf : ValueFormat) : Option Char :=
  match vf.attr.attr "number:transliteration-format" with
  | none => none
  | some v => v.toList.head?

/-- ValueFormat::set_volatile: writes the style:volatile attribute. -/
def ValueFormat.set_volatile (vf : ValueFormat) (volatile : Bool) : ValueFormat :=
  { vf with attr := vf.attr.set_attr "style:volatile" (if volatile then "true" else "false") }

/-- ValueFormat::volatile. -/
def ValueFormat.volatile (vf : ValueFormat) : Option Bool :=
  match vf.attr.attr "style:volatile" with
  | none => none
  | some s => parseBool s

/-- ValueFormat::set_automatic_order: writes the number:automatic-order
attribute. -/
def ValueFormat.set_automatic_order (vf : ValueFormat) (volatile : Bool) : ValueFormat :=
  { vf with attr :=
      vf.attr.set_attr "number:automatic-order" (if volatile then "true" else "false") }

/-- ValueFormat::automatic_order. -/
def ValueFormat.automatic_order (vf : ValueFormat) : Option Bool :=
  match vf.attr.attr "number:automatic-order" with
  | none => none
  | some s => parseBool s

/-- ValueFormat::set_value_type: the assert against the Empty sentinel
is embedded as an Option (none is the halted execution). -/
def ValueFormat.set_value_type (vf : ValueFormat) (value_type : ValueType) :
    Option ValueFormat :=
  if value_type = ValueType.Empty then none
  else some { vf with v_type := value_type }

/-- ValueFormat::value_type. -/
def ValueFormat.value_type (vf : ValueFormat) : ValueType := vf.v_type

/-- ValueFormat::set_origin. -/
def ValueFormat.set_origin (vf : ValueFormat) (origin : StyleOrigin) : ValueFormat :=
  { vf with origin := origin }

/-- ValueFormat::set_styleuse. -/
def ValueFormat.set_styleuse (vf : ValueFormat) (styleuse : StyleUse) : ValueFormat :=
  { vf with styleuse := styleuse }

/-- ValueFormat::new_named: asserts that the value type is not the
Empty sentinel (none is the halted execution). -/
def ValueFormat.new_named (name : String) (value_type : ValueType) : Option ValueFormat :=
  if value_type = ValueType.Empty then none
  else some
    { name := name
      v_type := value_type
      origin := StyleOrigin.Styles
      styleuse := StyleUse.Default
      attr := AttrMap2.empty
      textstyle := AttrMap2.empty
      parts := []
      stylemaps := none }

/-- ValueFormat::new_localized: as new_named, then stores the locale
subtags as individual attributes. -/
def ValueFormat.new_localized (name : String) (locale : Locale) (value_type : ValueType) :
    Option ValueFormat :=
  if value_type = ValueType.Empty then none
  else
    let v : ValueFormat :=
      { name := name
        v_type := value_type
        origin := StyleOrigin.Styles
        styleuse := StyleUse.Default
        attr := AttrMap2.empty
        textstyle := AttrMap2.empty
        parts := []
        stylemaps := none }
    let v := v.set_language locale.language
    let v := match locale.region with
      | some region => v.set_country region
      | none => v
    let v := match locale.script with
      | some script => v.set_script script
      | none => v
    some v

/-- ValueFormat::push_part: appends one part. -/
def ValueFormat.push_part (vf : ValueFormat) (part : FormatPart) : ValueFormat :=
  { vf with parts := vf.parts ++ [part] }

/-- ValueFormat::push_parts: appends a whole part sequence
(the Rust source vector is drained; ownership is not modelled). -/
def ValueFormat.push_parts (vf : ValueFormat) (partvec : List FormatPart) : ValueFormat :=
  { vf with parts := vf.parts ++ partvec }

/-- ValueFormat::push_number_full. -/
def ValueFormat.push_number_full (vf : ValueFormat) (decimal_places : Nat) (grouping : Bool)
    (min_decimal_places mininteger_digits : Nat)
    (display_factor : Option ℚ) (decimal_replacement : Option Char) : ValueFormat :=
  vf.push_part (FormatPart.new_number decimal_places grouping min_decimal_places
    mininteger_digits display_factor decimal_replacement)

/-- ValueFormat::push_number. -/
def ValueFormat.push_number (vf : ValueFormat) (decimal_places : Nat) (grouping : Bool) :
    ValueFormat :=
  vf.push_part (FormatPart.new_number decimal_places grouping 0 1 none none)

/-- ValueFormat::push_number_fix: minimum decimal places equal the
requested count. -/
def ValueFormat.push_number_fix (vf : ValueFormat) (decimal_places : Nat) (grouping : Bool) :
    ValueFormat :=
  vf.push_part (FormatPart.new_number decimal_places grouping decimal_places 1 none none)

/-- ValueFormat::push_fill_character. -/
def ValueFormat.push_fill_character (vf : ValueFormat) (fill_character : Char) : ValueFormat :=
  vf.push_part (FormatPart.new_fill_character fill_character)

/-- ValueFormat::push_scientific_number. -/
def ValueFormat.push_scientific_number (vf : ValueFormat) (decimal_places : Nat)
    (grouping : Bool) (min_exponentdigits min_integer_digits : Option Nat) : ValueFormat :=
  vf.push_part (FormatPart.new_scientific_number decimal_places grouping min_exponentdigits
    min_integer_digits)

/-- ValueFormat::push_fraction. -/
def ValueFormat.push_fraction (vf : ValueFormat) (denominatorvalue : Nat)
    (min_denominator_digits min_integer_digits min_numerator_digits : Nat)
    (grouping : Bool) (max_denominator_value : Option Nat) : ValueFormat :=
  vf.push_part (FormatPart.new_fraction denominatorvalue min_denominator_digits
    min_integer_digits min_numerator_digits grouping max_denominator_value)

/-- ValueFormat::push_currency_symbol. -/
def ValueFormat.push_currency_symbol (vf : ValueFormat) (locale : Locale) (symbol : String) :
    ValueFormat :=
  vf.push_part (FormatPart.new_currency_symbol locale symbol)

/-- ValueFormat::push_day. -/
def ValueFormat.push_day (vf : ValueFormat) (style : FormatNumberStyle)
    (calendar : FormatCalendar) : ValueFormat :=
  vf.push_part (FormatPart.new_day style calendar)

/-- ValueFormat::push_month. -/
def ValueFormat.push_month (vf : ValueFormat) (style : FormatNumberStyle)
    (textual : FormatTextual) (possessive_form : FormatMonth)
    (calendar : FormatCalendar) : ValueFormat :=
  vf.push_part (FormatPart.new_month style textual possessive_form calendar)

/-- ValueFormat::push_year. -/
def ValueFormat.push_year (vf : ValueFormat) (style : FormatNumberStyle)
    (calendar : FormatCalendar) : ValueFormat :=
  vf.push_part (FormatPart.new_year style calendar)

/-- ValueFormat::push_era. -/
def ValueFormat.push_era (vf : ValueFormat) (style : FormatNumberStyle)
    (calendar : FormatCalendar) : ValueFormat :=
  vf.push_part (FormatPart.new_era style calendar)

/-- ValueFormat::push_day_of_week. -/
def ValueFormat.push_day_of_week (vf : ValueFormat) (style : FormatNumberStyle)
    (calendar : FormatCalendar) : ValueFormat :=
  vf.push_part (FormatPart.new_day_of_week style calendar)

/-- ValueFormat::push_week_of_year. -/
def ValueFormat.push_week_of_year (vf : ValueFormat) (calendar : FormatCalendar) : ValueFormat :=
  vf.push_part (FormatPart.new_week_of_year calendar)

/-- ValueFormat::push_quarter. -/
def ValueFormat.push_quarter (vf : ValueFormat) (style : FormatNumberStyle)
    (calendar : FormatCalendar) : ValueFormat :=
  vf.push_part (FormatPart.new_quarter style calendar)

/-- ValueFormat::push_hours. -/
def ValueFormat.push_hours (vf : ValueFormat) (style : FormatNumberStyle) : ValueFormat :=
  vf.push_part (FormatPart.new_hours style)

/-- ValueFormat::push_minutes. -/
def ValueFormat.push_minutes (vf : ValueFormat) (style : FormatNumberStyle) : ValueFormat :=
  vf.push_part (FormatPart.new_minutes style)

/-- ValueFormat::push_seconds. -/
def ValueFormat.push_seconds (vf : ValueFormat) (style : FormatNumberStyle)
    (decimal_places : Nat) : ValueFormat :=
  vf.push_part (FormatPart.new_seconds style decimal_places)

/-- ValueFormat::push_am_pm. -/
def ValueFormat.push_am_pm (vf : ValueFormat) : ValueFormat :=
  vf.push_part FormatPart.new_am_pm

/-- ValueFormat::push_boolean. -/
def ValueFormat.push_boolean (vf : ValueFormat) : ValueFormat :=
  vf.push_part FormatPart.new_boolean

/-- ValueFormat::push_text. -/
def ValueFormat.push_text (vf : ValueFormat) (t : String) : ValueFormat :=
  vf.push_part (FormatPart.new_text t)

/-- ValueFormat::push_text_content. -/
def ValueFormat.push_text_content (vf : ValueFormat) : ValueFormat :=
  vf.push_part FormatPart.new_text_content

/-- ValueFormat::push_stylemap. -/
def ValueFormat.push_stylemap (vf : ValueFormat) (stylemap : StyleMap) : ValueFormat :=
  { vf with stylemaps := some ((vf.stylemaps.getD []) ++ [stylemap]) }

/-! ## The rendering entry points (ValueFormat::format_*): walk the
parts in order, appending each contribution to the output buffer -/

/-- ValueFormat::format_boolean. -/
def ValueFormat.format_boolean (vf : ValueFormat) (b : Bool) : String :=
  vf.parts.foldl (fun buf p => buf ++ p.format_boolean b) ""

/-- ValueFormat::format_float. -/
def ValueFormat.format_float (vf : ValueFormat) (f : ℚ) : String :=
  vf.parts.foldl (fun buf p => buf ++ p.format_float f) ""

/-- ValueFormat::format_str. -/
def ValueFormat.format_str (vf : ValueFormat) (s : String) : String :=
  vf.parts.foldl (fun buf p => buf ++ p.format_str s) ""

/-- Whether some part of the format is an AmPm part (the h12 pre-pass
inside ValueFormat::format_datetime). -/
def hasAmPm (parts : List FormatPart) : Bool :=
  parts.any (fun v => v.part_type = FormatPartType.AmPm)

/-- ValueFormat::format_datetime: precomputes the h12 flag from the
presence of an AmPm part, then renders every part with it. -/
def ValueFormat.format_datetime (vf : ValueFormat) (d : NaiveDateTime) : String :=
  let h12 := hasAmPm vf.parts
  vf.parts.foldl (fun buf p => buf ++ p.format_datetime d h12) ""

/-- ValueFormat::format_time_duration. -/
def ValueFormat.format_time_duration (vf : ValueFormat) (d : Duration) : String :=
  vf.parts.foldl (fun buf p => buf ++ p.format_time_duration d) ""

/-! ## Shared facts about the rendering buffer and digit strings -/

/-- Folding the buffer over contributions that are all empty leaves the
buffer unchanged. -/
theorem foldl_append_all_empty {α : Type} (f : α → String) :
    ∀ (l : List α) (acc : String), (∀ p ∈ l, f p = "") →
      l.foldl (fun buf p => buf ++ f p) acc = acc := by
  intro l
  induction l with
  | nil => intro acc _; rfl
  | cons a t ih =>
    intro acc h
    have ha : f a = "" := h a (by simp)
    have ht : ∀ p ∈ t, f p = "" := fun p hp => h p (by simp [hp])
    simp [List.foldl, ha, ih acc ht]

/-- Every character produced by the digit printer is a decimal digit
character. -/
theorem mem_natToDigitsAux (fuel : Nat) :
    ∀ (n : Nat), ∀ c ∈ natToDigitsAux fuel n, ∃ m, c = digitChar m := by
  induction fuel with
  | zero => intro n c hc; simp [natToDigitsAux] at hc
  | succ fuel ih =>
    intro n c hc
    by_cases h : n < 10
    · simp [natToDigitsAux, h] at hc
      exact ⟨n, hc⟩
    · simp [natToDigitsAux, h] at hc
      rcases hc with hc | hc
      · exact ih (n / 10) c hc
      · exact ⟨n % 10, hc⟩

/-- A decimal digit character is not the decimal dot. -/
theorem digitChar_ne_dot (n : Nat) : digitChar n ≠ '.' := by
  unfold digitChar
  split <;> decide

/-- Bound on the number of printed digits: below `10 ^ k` at most `k`
digits are printed (for positive `k`). -/
theorem length_natToDigitsAux_le (fuel : Nat) :
    ∀ (n k : Nat), n < 10 ^ k → 1 ≤ k →
      (natToDigitsAux fuel n).length ≤ k := by
  induction fuel with
  | zero => intro n k _ hk; simp [natToDigitsAux]
  | succ fuel ih =>
    intro n k hn hk
    by_cases h : n < 10
    · simp [natToDigitsAux, h]
      omega
    · have hk2 : 2 ≤ k := by
        by_contra hlt
        have : k = 1 := by omega
        subst this
        simp at hn
        omega
      have hdiv : n / 10 < 10 ^ (k - 1) := by
        have h10 : 0 < 10 := by omega
        rw [Nat.div_lt_iff_lt_mul h10]
        have : 10 ^ (k - 1) * 10 = 10 ^ k := by
          rw [← pow_succ]
          congr 1
          omega
        omega
      have := ih (n / 10) (k - 1) hdiv (by omega)
      simp [natToDigitsAux, h]
      omega

/-- takeWhile of a satisfying block followed by a failing separator
returns exactly the block. -/
theorem takeWhile_append_block (p : Char → Bool) :
    ∀ (xs : List Char) (c : Char) (ys : List Char),
      (∀ x ∈ xs, p x = true) → p c = false →
      ((xs ++ c :: ys).takeWhile p) = xs := by
  intro xs
  induction xs with
  | nil => intro c ys _ hc; simp [List.takeWhile, hc]
  | cons a t ih =>
    intro c ys h hc
    have ha : p a = true := h a (by simp)
    have ht : ∀ x ∈ t, p x = true := fun x hx => h x (by simp [hx])
    simp [List.takeWhile, ha, ih c ys ht hc]

/-- No character of the digit printer output is the decimal dot. -/
theorem natToDigits_ne_dot (n : Nat) : ∀ c ∈ natToDigits n, c ≠ '.' := by
  intro c hc
  rcases mem_natToDigitsAux (n + 1) n c hc with ⟨m, rfl⟩
  exact digitChar_ne_dot m

/-! ## Claim-side helper definitions -/

/-- Rendering of an Hours part on the 24-hour clock (chrono H specifiers), as the
claims describe it. -/
def hoursRender24 (p : FormatPart) (d : NaiveDateTime) : String :=
  if p.attr_default "number:style" "" = "long" then pad2 d.hour else natToString10 d.hour

/-- Rendering of an Hours part on the 12-hour clock (chrono I specifiers), as the
claims describe it. -/
def hoursRender12 (p : FormatPart) (d : NaiveDateTime) : String :=
  if p.attr_default "number:style" "" = "long" then pad2 (hour12 d.hour)
  else natToString10 (hour12 d.hour)

/-- A fixed date-time at hour 13: 2020-09-15 13:05:07. -/
def dt13 : NaiveDateTime := ⟨2020, 9, 15, 13, 5, 7⟩

/-- A format holding [Hours(long), AmPm]. -/
def fmtHoursAmPm : ValueFormat :=
  (ValueFormat.new.push_hours FormatNumberStyle.Long).push_am_pm

/-- A format holding a single Hours(long) part. -/
def fmtHoursOnly : ValueFormat := ValueFormat.new.push_hours FormatNumberStyle.Long

/-! ## C1 -/

/-- C1: format_datetime renders each Hours part of a format on the
12-hour clock exactly when some part of the same format has type AmPm;
at hour 13, [Hours(long), AmPm] yields hour value 1 (rendered 01,
followed by the meridiem indicator PM), while the same Hours part with
no AmPm sibling yields 13. -/
theorem C1_ampm_hours_coupling :
    (∀ (vf : ValueFormat) (d : NaiveDateTime) (p : FormatPart),
      p ∈ vf.parts → p.part_type = FormatPartType.Hours →
      p.format_datetime d (hasAmPm vf.parts) =
        (if hasAmPm vf.parts then hoursRender12 p d else hoursRender24 p d))
    ∧ fmtHoursAmPm.format_datetime dt13 = "01" ++ "PM"
    ∧ fmtHoursOnly.format_datetime dt13 = "13"
    ∧ hour12 13 = 1 := by
  refine ⟨?_, by decide, by decide, by decide⟩
  intro vf d p _ hty
  cases h : hasAmPm vf.parts <;>
    simp [FormatPart.format_datetime, hty, hoursRender12, hoursRender24]

/-- Witness for C1: the Hours(long) part inside [Hours(long), AmPm]
rendered at the fixed date-time. -/
theorem C1_witness :
    (FormatPart.new_hours FormatNumberStyle.Long).format_datetime dt13
        (hasAmPm fmtHoursAmPm.parts) =
      (if hasAmPm fmtHoursAmPm.parts then
        hoursRender12 (FormatPart.new_hours FormatNumberStyle.Long) dt13
      else hoursRender24 (FormatPart.new_hours FormatNumberStyle.Long) dt13) :=
  C1_ampm_hours_coupling.1 fmtHoursAmPm dt13
    (FormatPart.new_hours FormatNumberStyle.Long) (by decide) (by decide)

/-! ## C4 -/

/-- C4: format_time_duration renders an Hours part as the total whole
hours of the duration (not clamped to 24), a Minutes part as the total
minutes modulo 60, a Seconds part as the total seconds modulo 60, a
Text part as its literal content, and every other part type as no
output; a 90-minute duration renders Minutes as 30 and Hours as 1, and
a 25-hour duration renders Hours as 25. -/
theorem C4_duration_rendering :
    (∀ (p : FormatPart) (d : Duration),
      (p.part_type = FormatPartType.Hours →
        p.format_time_duration d = intToString10 (d.secs.tdiv 3600))
      ∧ (p.part_type = FormatPartType.Minutes →
        p.format_time_duration d = intToString10 ((d.secs.tdiv 60).tmod 60))
      ∧ (p.part_type = FormatPartType.Seconds →
        p.format_time_duration d = intToString10 (d.secs.tmod 60))
      ∧ (p.part_type = FormatPartType.Text →
        p.format_time_duration d = p.content.getD "")
      ∧ (p.part_type ≠ FormatPartType.Hours → p.part_type ≠ FormatPartType.Minutes →
          p.part_type ≠ FormatPartType.Seconds → p.part_type ≠ FormatPartType.Text →
          p.format_time_duration d = ""))
    ∧ (ValueFormat.new.push_minutes FormatNumberStyle.Long).format_time_duration
        ⟨90 * 60⟩ = "30"
    ∧ (ValueFormat.new.push_hours FormatNumberStyle.Long).format_time_duration
        ⟨90 * 60⟩ = "1"
    ∧ (ValueFormat.new.push_hours FormatNumberStyle.Long).format_time_duration
        ⟨25 * 3600⟩ = "25" := by
  refine ⟨?_, by decide, by decide, by decide⟩
  intro p d
  refine ⟨?_, ?_, ?_, ?_, ?_⟩ <;> intro h
  · simp [FormatPart.format_time_duration, h, Duration.num_hours]
  · simp [FormatPart.format_time_duration, h, Duration.num_minutes]
  · simp [FormatPart.format_time_duration, h, Duration.num_seconds]
  · cases hc : p.content <;>
      simp [FormatPart.format_time_duration, h, hc]
  · intro h2 h3 h4
    cases hty : p.part_type <;>
      simp_all [FormatPart.format_time_duration]

/-- Witness for C4: the concrete Minutes part of a time format at the
90-minute duration. -/
theorem C4_witness :
    (FormatPart.new_minutes FormatNumberStyle.Long).format_time_duration ⟨90 * 60⟩ =
      intToString10 ((Int.tdiv (90 * 60) 60).tmod 60) :=
  (C4_duration_rendering.1 (FormatPart.new_minutes FormatNumberStyle.Long)
    ⟨90 * 60⟩).2.1 (by decide)

/-! ## C6 -/

/-- C6: the claim that each locale/display setter writes only its own
attribute slot fails in the code: set_display_name stores into the
number:country attribute, the same slot set_country uses, so a
set_display_name call after set_country clobbers the stored country
(here: DE is replaced by the unparsable display name Mine, so country()
becomes absent), contradicting the documented style:display-name slot
of the setter. -/
theorem C6_display_name_overwrites_country :
    ((ValueFormat.new.set_country ⟨"DE"⟩).country = some ⟨"DE"⟩)
    ∧ (((ValueFormat.new.set_country ⟨"DE"⟩).set_display_name "Mine").country = none)
    ∧ (((ValueFormat.new.set_country ⟨"DE"⟩).set_display_name "Mine").display_name
        = some "Mine")
    ∧ ((ValueFormat.new.set_country ⟨"DE"⟩).display_name = some "DE") := by
  refine ⟨by decide, ?_, by decide, by decide⟩
  decide

/-! ## C7 -/

/-- C7: a ValueFormat whose parts are a single Text part with content
`c` renders to `c` under every rendering entry point, regardless of the
input value. -/
theorem C7_text_only_renders_content (vf : ValueFormat) (c : String) (b : Bool) (f : ℚ)
    (s : String) (d : NaiveDateTime) (du : Duration) :
    ({ vf with parts := [FormatPart.new_text c] } : ValueFormat).format_boolean b = c
    ∧ ({ vf with parts := [FormatPart.new_text c] } : ValueFormat).format_float f = c
    ∧ ({ vf with parts := [FormatPart.new_text c] } : ValueFormat).format_str s = c
    ∧ ({ vf with parts := [FormatPart.new_text c] } : ValueFormat).format_datetime d = c
    ∧ ({ vf with parts := [FormatPart.new_text c] } : ValueFormat).format_time_duration du
        = c := by
  refine ⟨?_, ?_, ?_, ?_, ?_⟩ <;>
    simp [ValueFormat.format_boolean, ValueFormat.format_float, ValueFormat.format_str,
      ValueFormat.format_datetime, ValueFormat.format_time_duration, hasAmPm,
      FormatPart.new_text, FormatPart.new_with_content, FormatPart.format_boolean,
      FormatPart.format_float, FormatPart.format_str, FormatPart.format_datetime,
      FormatPart.format_time_duration]

/-! ## C10 -/

/-- C10: push_month produces a Month part that carries the
number:possessive-form attribute with value true exactly when the
possessive_form argument is Nominativ, and no possessive-form attribute
when it is Possessiv — inverted relative to the FormatMonth Display
encoding (Nominativ prints false, Possessiv prints true). -/
theorem C10_push_month_possessive_inverted :
    (∀ (vf : ValueFormat) (style : FormatNumberStyle) (textual : FormatTextual)
        (pf : FormatMonth) (cal : FormatCalendar),
      (vf.push_month style textual pf cal).parts =
        vf.parts ++ [FormatPart.new_month style textual pf cal])
    ∧ (∀ (style : FormatNumberStyle) (textual : FormatTextual) (pf : FormatMonth)
        (cal : FormatCalendar),
      (FormatPart.new_month style textual pf cal).attr.attr "number:possessive-form" =
        (match pf with
          | FormatMonth.Nominativ => some "true"
          | FormatMonth.Possessiv => none))
    ∧ FormatMonth.toString FormatMonth.Nominativ = "false"
    ∧ FormatMonth.toString FormatMonth.Possessiv = "true" := by
  refine ⟨?_, ?_, by decide, by decide⟩
  · intro vf style textual pf cal
    rfl
  · intro style textual pf cal
    cases style <;> cases textual <;> cases pf <;> cases cal <;> decide

/-! ## C9: the append operations of the builder API -/

/-- One append operation of the fluent builder API: push_part,
push_parts, or one of the typed push-builders. -/
inductive PushOp where
  | part (p : FormatPart)
  | parts (l : List FormatPart)
  | number_full (decimal_places : Nat) (grouping : Bool)
      (min_decimal_places mininteger_digits : Nat)
      (display_factor : Option ℚ) (decimal_replacement : Option Char)
  | number (decimal_places : Nat) (grouping : Bool)
  | number_fix (decimal_places : Nat) (grouping : Bool)
  | fill_character (c : Char)
  | scientific_number (decimal_places : Nat) (grouping : Bool)
      (min_exponentdigits min_integer_digits : Option Nat)
  | fraction (denominatorvalue : Nat)
      (min_denominator_digits min_integer_digits min_numerator_digits : Nat)
      (grouping : Bool) (max_denominator_value : Option Nat)
  | currency_symbol (loc : Locale) (symbol : String)
  | day (style : FormatNumberStyle) (cal : FormatCalendar)
  | month (style : FormatNumberStyle) (t : FormatTextual) (pf : FormatMonth)
      (cal : FormatCalendar)
  | year (style : FormatNumberStyle) (cal : FormatCalendar)
  | era (style : FormatNumberStyle) (cal : FormatCalendar)
  | day_of_week (style : FormatNumberStyle) (cal : FormatCalendar)
  | week_of_year (cal : FormatCalendar)
  | quarter (style : FormatNumberStyle) (cal : FormatCalendar)
  | hours (style : FormatNumberStyle)
  | minutes (style : FormatNumberStyle)
  | seconds (style : FormatNumberStyle) (decimal_places : Nat)
  | am_pm
  | boolean
  | text (t : String)
  | text_content

/-- Run one append operation through the corresponding source method. -/
def PushOp.apply (vf : ValueFormat) : PushOp → ValueFormat
  | .part p => vf.push_part p
  | .parts l => vf.push_parts l
  | .number_full a b c d e f => vf.push_number_full a b c d e f
  | .number a b => vf.push_number a b
  | .number_fix a b => vf.push_number_fix a b
  | .fill_character c => vf.push_fill_character c
  | .scientific_number a b c d => vf.push_scientific_number a b c d
  | .fraction a b c d e f => vf.push_fraction a b c d e f
  | .currency_symbol loc symbol => vf.push_currency_symbol loc symbol
  | .day style cal => vf.push_day style cal
  | .month style t pf cal => vf.push_month style t pf cal
  | .year style cal => vf.push_year style cal
  | .era style cal => vf.push_era style cal
  | .day_of_week style cal => vf.push_day_of_week style cal
  | .week_of_year cal => vf.push_week_of_year cal
  | .quarter style cal => vf.push_quarter style cal
  | .hours style => vf.push_hours style
  | .minutes style => vf.push_minutes style
  | .seconds style dp => vf.push_seconds style dp
  | .am_pm => vf.push_am_pm
  | .boolean => vf.push_boolean
  | .text t => vf.push_text t
  | .text_content => vf.push_text_content

/-- The part sequence one append operation is expected to contribute,
built from the part constructors themselves. -/
def PushOp.pushed : PushOp → List FormatPart
  | .part p => [p]
  | .parts l => l
  | .number_full a b c d e f => [FormatPart.new_number a b c d e f]
  | .number a b => [FormatPart.new_number a b 0 1 none none]
  | .number_fix a b => [FormatPart.new_number a b a 1 none none]
  | .fill_character c => [FormatPart.new_fill_character c]
  | .scientific_number a b c d => [FormatPart.new_scientific_number a b c d]
  | .fraction a b c d e f => [FormatPart.new_fraction a b c d e f]
  | .currency_symbol loc symbol => [FormatPart.new_currency_symbol loc symbol]
  | .day style cal => [FormatPart.new_day style cal]
  | .month style t pf cal => [FormatPart.new_month style t pf cal]
  | .year style cal => [FormatPart.new_year style cal]
  | .era style cal => [FormatPart.new_era style cal]
  | .day_of_week style cal => [FormatPart.new_day_of_week style cal]
  | .week_of_year cal => [FormatPart.new_week_of_year cal]
  | .quarter style cal => [FormatPart.new_quarter style cal]
  | .hours style => [FormatPart.new_hours style]
  | .minutes style => [FormatPart.new_minutes style]
  | .seconds style dp => [FormatPart.new_seconds style dp]
  | .am_pm => [FormatPart.new_am_pm]
  | .boolean => [FormatPart.new_boolean]
  | .text t => [FormatPart.new_text t]
  | .text_content => [FormatPart.new_text_content]

/-- Run a sequence of append operations left to right. -/
def applyPushOps (vf : ValueFormat) (ops : List PushOp) : ValueFormat :=
  ops.foldl PushOp.apply vf

/-- Each append operation extends the part sequence at the end by
exactly its expected contribution. -/
theorem pushOp_apply_parts (vf : ValueFormat) (op : PushOp) :
    (PushOp.apply vf op).parts = vf.parts ++ op.pushed := by
  cases op <;> rfl

/-- C9: appending any sequence of parts through the push-builders,
push_part or push_parts and then reading parts() yields exactly the
appended parts, in insertion order, with identical type tags,
attributes and content. -/
theorem C9_push_round_trip (vf : ValueFormat) (ops : List PushOp) :
    (applyPushOps vf ops).parts = vf.parts ++ (ops.map PushOp.pushed).flatten := by
  induction ops generalizing vf with
  | nil => simp [applyPushOps]
  | cons op rest ih =>
    have h1 : applyPushOps vf (op :: rest) = applyPushOps (PushOp.apply vf op) rest := rfl
    rw [h1, ih, pushOp_apply_parts, List.map_cons, List.flatten_cons, List.append_assoc]

/-! ## C8: the non-Empty invariant on the value type -/

/-- One public mutation of a ValueFormat; the mutate operations stand
for the mutable accessors parts_mut, textstyle_mut and attrmap_mut. -/
inductive ApiOp where
  | set_name (s : String)
  | set_title (s : String)
  | set_display_name (s : String)
  | set_country (r : Region)
  | set_language (l : Language)
  | set_script (sc : Script)
  | set_transliteration_country (r : Region)
  | set_transliteration_language (l : Language)
  | set_transliteration_format (c : Char)
  | set_volatile (b : Bool)
  | set_automatic_order (b : Bool)
  | set_origin (o : StyleOrigin)
  | set_styleuse (u : StyleUse)
  | set_value_type (vt : ValueType)
  | push (op : PushOp)
  | push_stylemap (m : StyleMap)
  | mutate_parts (f : List FormatPart → List FormatPart)
  | mutate_textstyle (f : AttrMap2 → AttrMap2)
  | mutate_attr (f : AttrMap2 → AttrMap2)

/-- Run one public mutation; none is a halted execution (the assert in
set_value_type). -/
def ApiOp.apply (vf : ValueFormat) : ApiOp → Option ValueFormat
  | .set_name s => some (vf.set_name s)
  | .set_title s => some (vf.set_title s)
  | .set_display_name s => some (vf.set_display_name s)
  | .set_country r => some (vf.set_country r)
  | .set_language l => some (vf.set_language l)
  | .set_script sc => some (vf.set_script sc)
  | .set_transliteration_country r => some (vf.set_transliteration_country r)
  | .set_transliteration_language l => some (vf.set_transliteration_language l)
  | .set_transliteration_format c => some (vf.set_transliteration_format c)
  | .set_volatile b => some (vf.set_volatile b)
  | .set_automatic_order b => some (vf.set_automatic_order b)
  | .set_origin o => some (vf.set_origin o)
  | .set_styleuse u => some (vf.set_styleuse u)
  | .set_value_type vt => vf.set_value_type vt
  | .push op => some (PushOp.apply vf op)
  | .push_stylemap m => some (vf.push_stylemap m)
  | .mutate_parts f => some { vf with parts := f vf.parts }
  | .mutate_textstyle f => some { vf with textstyle := f vf.textstyle }
  | .mutate_attr f => some { vf with attr := f vf.attr }

/-- Run a sequence of public mutations, stopping at a halt. -/
def applyApiOps : ValueFormat → List ApiOp → Option ValueFormat
  | vf, [] => some vf
  | vf, op :: rest =>
    match ApiOp.apply vf op with
    | none => none
    | some v => applyApiOps v rest

/-- Appending a part sequence never changes the value type. -/
theorem pushOp_apply_v_type (vf : ValueFormat) (op : PushOp) :
    (PushOp.apply vf op).v_type = vf.v_type := by
  cases op <;> rfl

/-- No public mutation can introduce the Empty value type. -/
theorem apiOp_preserves_nonempty (vf : ValueFormat) (op : ApiOp) (vf2 : ValueFormat)
    (hv : vf.v_type ≠ ValueType.Empty) (h : ApiOp.apply vf op = some vf2) :
    vf2.v_type ≠ ValueType.Empty := by
  cases op <;> simp only [ApiOp.apply] at h
  case set_value_type vt =>
    unfold ValueFormat.set_value_type at h
    split at h
    · simp at h
    · rename_i hvt
      rw [Option.some.injEq] at h
      subst h
      exact hvt
  case push op =>
    rw [Option.some.injEq] at h
    subst h
    simp only [pushOp_apply_v_type]
    exact hv
  all_goals
    rw [Option.some.injEq] at h
  all_goals
    subst h
  all_goals
    exact hv

/-- A halted-free run of public mutations keeps the value type
non-Empty. -/
theorem applyApiOps_preserves_nonempty :
    ∀ (ops : List ApiOp) (vf : ValueFormat) (vf1 : ValueFormat),
      vf.v_type ≠ ValueType.Empty → applyApiOps vf ops = some vf1 →
      vf1.v_type ≠ ValueType.Empty := by
  intro ops
  induction ops with
  | nil =>
    intro vf vf1 hv h
    simp [applyApiOps] at h
    subst h
    exact hv
  | cons op rest ih =>
    intro vf vf1 hv h
    simp only [applyApiOps] at h
    rcases h2 : ApiOp.apply vf op with _ | v
    · rw [h2] at h; simp at h
    · rw [h2] at h
      exact ih v vf1 (apiOp_preserves_nonempty vf op v hv h2) h

/-- C8: new_named and new_localized halt (assert) exactly on the Empty
value kind, set_value_type likewise rejects Empty, and every format
produced by either constructor and mutated through any sequence of
public operations has a non-Empty value_type(). -/
theorem C8_value_type_never_empty :
    (∀ (name : String) (vt : ValueType),
      ValueFormat.new_named name vt = none ↔ vt = ValueType.Empty)
    ∧ (∀ (name : String) (loc : Locale) (vt : ValueType),
      ValueFormat.new_localized name loc vt = none ↔ vt = ValueType.Empty)
    ∧ (∀ (vf : ValueFormat) (vt : ValueType),
      vf.set_value_type vt = none ↔ vt = ValueType.Empty)
    ∧ (∀ (name : String) (vt : ValueType) (vf0 : ValueFormat) (ops : List ApiOp)
        (vf1 : ValueFormat),
      ValueFormat.new_named name vt = some vf0 → applyApiOps vf0 ops = some vf1 →
      vf1.value_type ≠ ValueType.Empty)
    ∧ (∀ (name : String) (loc : Locale) (vt : ValueType) (vf0 : ValueFormat)
        (ops : List ApiOp) (vf1 : ValueFormat),
      ValueFormat.new_localized name loc vt = some vf0 → applyApiOps vf0 ops = some vf1 →
      vf1.value_type ≠ ValueType.Empty) := by
  have hnamed : ∀ (name : String) (vt : ValueType) (vf0 : ValueFormat),
      ValueFormat.new_named name vt = some vf0 → vf0.v_type = vt := by
    intro name vt vf0 h
    unfold ValueFormat.new_named at h
    split at h
    · simp at h
    · rw [Option.some.injEq] at h
      subst h
      rfl
  have hloc : ∀ (name : String) (loc : Locale) (vt : ValueType) (vf0 : ValueFormat),
      ValueFormat.new_localized name loc vt = some vf0 → vf0.v_type = vt := by
    intro name loc vt vf0 h
    unfold ValueFormat.new_localized at h
    split at h
    · simp at h
    · rcases hr : loc.region with _ | r <;> rcases hs : loc.script with _ | s <;>
        simp only [hr, hs] at h <;> rw [Option.some.injEq] at h <;> subst h <;> rfl
  refine ⟨?_, ?_, ?_, ?_, ?_⟩
  · intro name vt
    unfold ValueFormat.new_named
    split <;> simp_all
  · intro name loc vt
    unfold ValueFormat.new_localized
    split <;> simp_all
  · intro vf vt
    unfold ValueFormat.set_value_type
    split <;> simp_all
  · intro name vt vf0 ops vf1 h0 h1
    have hvt : vt ≠ ValueType.Empty := by
      intro hvt
      subst hvt
      simp [ValueFormat.new_named] at h0
    have := hnamed name vt vf0 h0
    exact applyApiOps_preserves_nonempty ops vf0 vf1 (by rw [this]; exact hvt) h1
  · intro name loc vt vf0 ops vf1 h0 h1
    have hvt : vt ≠ ValueType.Empty := by
      intro hvt
      subst hvt
      simp [ValueFormat.new_localized] at h0
    have := hloc name loc vt vf0 h0
    exact applyApiOps_preserves_nonempty ops vf0 vf1 (by rw [this]; exact hvt) h1

/-- The format built by new_named at the concrete witness input. -/
def vfC8 : ValueFormat := { ValueFormat.new with name := "n", v_type := ValueType.Number }

/-- The witness format after a set_value_type mutation. -/
def vfC8b : ValueFormat := { vfC8 with v_type := ValueType.Boolean }

/-- Witness for C8: a Number-typed named format mutated by a
set_value_type call keeps a non-Empty value type. -/
theorem C8_witness : vfC8b.value_type ≠ ValueType.Empty :=
  C8_value_type_never_empty.2.2.2.1 "n" ValueType.Number vfC8
    [ApiOp.set_value_type ValueType.Boolean] vfC8b (by decide) (by decide)

/-! ## C3: month rendering -/

/-- C3 counterexample: the claim says a textual Month part with long
style appends the full month name; on the code, long style selects the
abbreviated name (chrono b) and short style the full name (chrono B):
at month 9 the long textual rendering is Sep, not September. -/
theorem C3_counterexample :
    (FormatPart.new_month FormatNumberStyle.Long FormatTextual.Textual
        FormatMonth.Nominativ FormatCalendar.Default).format_datetime dt13 false = "Sep"
    ∧ monthNameFull dt13.month = "September"
    ∧ monthNameAbbrev dt13.month = "Sep"
    ∧ (FormatPart.new_month FormatNumberStyle.Long FormatTextual.Textual
        FormatMonth.Nominativ FormatCalendar.Default).format_datetime dt13 false ≠
        monthNameFull dt13.month
    ∧ (FormatPart.new_month FormatNumberStyle.Short FormatTextual.Textual
        FormatMonth.Nominativ FormatCalendar.Default).format_datetime dt13 false =
        "September" := by
  refine ⟨by decide, by decide, by decide, by decide, by decide⟩

/-- C3 (amended): for a textual Month part, format_datetime appends the
abbreviated month name when the style attribute is long and the full
month name when the style attribute is short; for a numeric Month part,
long style appends the zero-padded month number and short style the
unpadded month number. -/
theorem C3_month_rendering (style : FormatNumberStyle) (pf : FormatMonth)
    (cal : FormatCalendar) (d : NaiveDateTime) (h12 : Bool) :
    ((FormatPart.new_month style FormatTextual.Textual pf cal).format_datetime d h12 =
      (match style with
        | FormatNumberStyle.Long => monthNameAbbrev d.month
        | FormatNumberStyle.Short => monthNameFull d.month))
    ∧ ((FormatPart.new_month style FormatTextual.Numeric pf cal).format_datetime d h12 =
      (match style with
        | FormatNumberStyle.Long => pad2 d.month
        | FormatNumberStyle.Short => natToString10 d.month)) := by
  cases style <;> cases pf <;> cases cal <;> exact ⟨rfl, rfl⟩

/-! ## C5: empty output on empty or irrelevant part sequences -/

/-- The part types format_boolean reacts to. -/
def relevantBoolean : FormatPartType → Bool
  | FormatPartType.Boolean => true
  | FormatPartType.Text => true
  | _ => false

/-- The part types format_float reacts to. -/
def relevantFloat : FormatPartType → Bool
  | FormatPartType.Number => true
  | FormatPartType.ScientificNumber => true
  | FormatPartType.CurrencySymbol => true
  | FormatPartType.Text => true
  | _ => false

/-- The part types format_str reacts to. -/
def relevantStr : FormatPartType → Bool
  | FormatPartType.TextContent => true
  | FormatPartType.Text => true
  | _ => false

/-- The part types format_datetime reacts to. -/
def relevantDatetime : FormatPartType → Bool
  | FormatPartType.Day => true
  | FormatPartType.Month => true
  | FormatPartType.Year => true
  | FormatPartType.DayOfWeek => true
  | FormatPartType.WeekOfYear => true
  | FormatPartType.Hours => true
  | FormatPartType.Minutes => true
  | FormatPartType.Seconds => true
  | FormatPartType.AmPm => true
  | FormatPartType.Text => true
  | _ => false

/-- The part types format_time_duration reacts to. -/
def relevantDuration : FormatPartType → Bool
  | FormatPartType.Hours => true
  | FormatPartType.Minutes => true
  | FormatPartType.Seconds => true
  | FormatPartType.Text => true
  | _ => false

/-- An irrelevant part contributes nothing to format_boolean. -/
theorem format_boolean_irrelevant (p : FormatPart) (b : Bool)
    (h : relevantBoolean p.part_type = false) : p.format_boolean b = "" := by
  cases hty : p.part_type <;> simp_all [relevantBoolean, FormatPart.format_boolean]

/-- An irrelevant part contributes nothing to format_float. -/
theorem format_float_irrelevant (p : FormatPart) (f : ℚ)
    (h : relevantFloat p.part_type = false) : p.format_float f = "" := by
  cases hty : p.part_type <;> simp_all [relevantFloat, FormatPart.format_float]

/-- An irrelevant part contributes nothing to format_str. -/
theorem format_str_irrelevant (p : FormatPart) (s : String)
    (h : relevantStr p.part_type = false) : p.format_str s = "" := by
  cases hty : p.part_type <;> simp_all [relevantStr, FormatPart.format_str]

/-- An irrelevant part contributes nothing to format_datetime. -/
theorem format_datetime_irrelevant (p : FormatPart) (d : NaiveDateTime) (h12 : Bool)
    (h : relevantDatetime p.part_type = false) : p.format_datetime d h12 = "" := by
  cases hty : p.part_type <;> simp_all [relevantDatetime, FormatPart.format_datetime]

/-- An irrelevant part contributes nothing to format_time_duration. -/
theorem format_duration_irrelevant (p : FormatPart) (du : Duration)
    (h : relevantDuration p.part_type = false) : p.format_time_duration du = "" := by
  cases hty : p.part_type <;> simp_all [relevantDuration, FormatPart.format_time_duration]

/-- C5: every rendering entry point is a total function into strings,
and returns the empty string whenever the parts sequence is empty or
contains no part type relevant to the value kind being rendered. -/
theorem C5_empty_or_irrelevant (vf : ValueFormat) (b : Bool) (f : ℚ) (s : String)
    (d : NaiveDateTime) (du : Duration) :
    (vf.parts = [] →
      vf.format_boolean b = "" ∧ vf.format_float f = "" ∧ vf.format_str s = ""
      ∧ vf.format_datetime d = "" ∧ vf.format_time_duration du = "")
    ∧ ((∀ p ∈ vf.parts, relevantBoolean p.part_type = false) → vf.format_boolean b = "")
    ∧ ((∀ p ∈ vf.parts, relevantFloat p.part_type = false) → vf.format_float f = "")
    ∧ ((∀ p ∈ vf.parts, relevantStr p.part_type = false) → vf.format_str s = "")
    ∧ ((∀ p ∈ vf.parts, relevantDatetime p.part_type = false) → vf.format_datetime d = "")
    ∧ ((∀ p ∈ vf.parts, relevantDuration p.part_type = false) →
        vf.format_time_duration du = "") := by
  refine ⟨?_, ?_, ?_, ?_, ?_, ?_⟩
  · intro h
    simp [ValueFormat.format_boolean, ValueFormat.format_float, ValueFormat.format_str,
      ValueFormat.format_datetime, ValueFormat.format_time_duration, h]
  · intro h
    exact foldl_append_all_empty _ vf.parts ""
      (fun p hp => format_boolean_irrelevant p b (h p hp))
  · intro h
    exact foldl_append_all_empty _ vf.parts ""
      (fun p hp => format_float_irrelevant p f (h p hp))
  · intro h
    exact foldl_append_all_empty _ vf.parts ""
      (fun p hp => format_str_irrelevant p s (h p hp))
  · intro h
    exact foldl_append_all_empty _ vf.parts ""
      (fun p hp => format_datetime_irrelevant p d (hasAmPm vf.parts) (h p hp))
  · intro h
    exact foldl_append_all_empty _ vf.parts ""
      (fun p hp => format_duration_irrelevant p du (h p hp))

/-- Witness for C5: a format holding one Day part renders a boolean to
the empty string, and the empty format renders everything empty. -/
theorem C5_witness :
    ((ValueFormat.new.push_day FormatNumberStyle.Long
        FormatCalendar.Default).format_boolean true = "")
    ∧ (ValueFormat.new.format_float (mkRat 7 4) = "") :=
  ⟨(C5_empty_or_irrelevant
      (ValueFormat.new.push_day FormatNumberStyle.Long FormatCalendar.Default)
      true (mkRat 7 4) "s" dt13 ⟨0⟩).2.1 (by decide),
    ((C5_empty_or_irrelevant ValueFormat.new true (mkRat 7 4) "s" dt13 ⟨0⟩).1 rfl).2.1⟩

/-! ## C2: decimal places of the Number part -/

/-- A string without a decimal dot has no fractional digits. -/
theorem no_dot_digitsAfterDot (s : String) (h : ∀ c ∈ s.toList, c ≠ '.') :
    digitsAfterDot s = 0 := by
  unfold digitsAfterDot
  rw [if_neg]
  intro hm
  exact h _ hm rfl

/-- Characters of an appended string. -/
theorem toList_append (a b : String) : (a ++ b).toList = a.toList ++ b.toList := by
  cases a
  cases b
  rfl

/-- Characters of a string built from a character list. -/
theorem toList_mk (l : List Char) : (String.mk l).toList = l := rfl

/-- The padded fraction block has exactly `dec` characters. -/
theorem length_padLeft_digits (dec fp : Nat) (hfp : fp < 10 ^ dec) (hdec : 1 ≤ dec) :
    (padLeftZeros dec (natToDigits fp)).length = dec := by
  have hlen : (natToDigits fp).length ≤ dec :=
    length_natToDigitsAux_le (fp + 1) fp dec hfp hdec
  unfold padLeftZeros
  simp only [List.length_append, List.length_replicate]
  omega

/-- No character of the padded fraction block is the decimal dot. -/
theorem mem_padLeft_digits_ne_dot (dec fp : Nat) :
    ∀ c ∈ padLeftZeros dec (natToDigits fp), c ≠ '.' := by
  intro c hc
  unfold padLeftZeros at hc
  rcases List.mem_append.mp hc with h | h
  · have := List.eq_of_mem_replicate h
    subst this
    decide
  · exact natToDigits_ne_dot fp c h

/-- The fixed-point renderer emits exactly `dec` characters after the
decimal dot. -/
theorem digitsAfterDot_fmtFixed (dec : Nat) (q : ℚ) :
    digitsAfterDot (fmtFixed dec q) = dec := by
  rcases Nat.eq_zero_or_pos dec with hdec | hdec
  · subst hdec
    have hshape : fmtFixed 0 q = (if q.num < 0 then "-" else "") ++
        natToString10 (roundHalfEvenScaled (q.num.natAbs * 10 ^ 0) q.den / 10 ^ 0) := rfl
    rw [hshape]
    apply no_dot_digitsAfterDot
    intro c hc
    rw [toList_append] at hc
    rcases List.mem_append.mp hc with h | h
    · by_cases hq : q.num < 0 <;> simp [hq] at h
      subst h
      decide
    · exact natToDigits_ne_dot _ c h
  · have hne : dec ≠ 0 := by omega
    have hfp : roundHalfEvenScaled (q.num.natAbs * 10 ^ dec) q.den % 10 ^ dec < 10 ^ dec :=
      Nat.mod_lt _ (pow_pos (by omega) dec)
    set S : List Char := (if q.num < 0 then "-" else "" : String).data with hS
    set N : List Char := (natToString10 (roundHalfEvenScaled (q.num.natAbs * 10 ^ dec)
      q.den / 10 ^ dec)).data with hN
    set P : List Char := padLeftZeros dec (natToDigits (roundHalfEvenScaled
      (q.num.natAbs * 10 ^ dec) q.den % 10 ^ dec)) with hP
    have hPdot : ∀ c ∈ P, c ≠ '.' := by
      rw [hP]
      exact mem_padLeft_digits_ne_dot dec _
    have hPlen : P.length = dec := by
      rw [hP]
      exact length_padLeft_digits dec _ hfp hdec
    have hshape : (fmtFixed dec q).toList = S ++ N ++ ['.'] ++ P := by
      simp only [fmtFixed]
      rw [if_neg hne]
      simp only [String.toList, String.data_append, hS, hN, hP]
    unfold digitsAfterDot
    rw [hshape]
    rw [if_pos (by simp)]
    have hrev : (S ++ N ++ ['.'] ++ P).reverse =
        P.reverse ++ ('.') :: (N.reverse ++ S.reverse) := by
      simp [List.reverse_append]
    rw [hrev]
    rw [takeWhile_append_block _ _ _ _ ?hall ?hdot]
    case hall =>
      intro x hx
      rw [List.mem_reverse] at hx
      simp [hPdot x hx]
    case hdot => decide
    rw [List.length_reverse]
    exact hPlen

/-- The Number part of the C2 counterexample: built by new_number,
then its decimal-places attribute overwritten with an unparsable
value through the public set_attr. -/
def badNumberPart : FormatPart :=
  (FormatPart.new_number 3 false 0 1 none none).set_attr "number:decimal-places" "x"

/-- C2 counterexample: the claim says a Number part whose
decimal-places attribute is unparsable is treated as 0 decimal places;
on the code, an unparsable present attribute makes the part contribute
nothing at all, so the output is empty instead of the 0-digit rendering
of the float. -/
theorem C2_counterexample :
    badNumberPart.part_type = FormatPartType.Number
    ∧ badNumberPart.attr.attr "number:decimal-places" = some "x"
    ∧ parseUsize (badNumberPart.attr_default "number:decimal-places" "0") = none
    ∧ badNumberPart.format_float (mkRat 7 4) = ""
    ∧ fmtFixed 0 (mkRat 7 4) = "2"
    ∧ badNumberPart.format_float (mkRat 7 4) ≠ fmtFixed 0 (mkRat 7 4) := by
  refine ⟨by decide, by decide, by decide, by decide, by decide, by decide⟩

/-- C2 (amended): format_float reads the decimal-places attribute of a
Number part with default 0 when absent; whenever the attribute string
parses as a non-negative machine integer `dec`, it appends the float
rendered with exactly `dec` digits after the decimal point under
half-even fixed-point rounding; when the attribute is present but
unparsable, the part contributes nothing. -/
theorem C2_number_decimal_places (p : FormatPart) (f : ℚ)
    (hty : p.part_type = FormatPartType.Number) :
    (p.attr.attr "number:decimal-places" = none →
      p.format_float f = fmtFixed 0 f)
    ∧ (∀ dec : Nat, parseUsize (p.attr_default "number:decimal-places" "0") = some dec →
      p.format_float f = fmtFixed dec f ∧ digitsAfterDot (p.format_float f) = dec)
    ∧ (parseUsize (p.attr_default "number:decimal-places" "0") = none →
      p.format_float f = "") := by
  refine ⟨?_, ?_, ?_⟩
  · intro h
    have hd : p.attr_default "number:decimal-places" "0" = "0" := by
      simp [FormatPart.attr_default, h]
    have hp : parseUsize "0" = some 0 := by decide
    simp [FormatPart.format_float, hty, hd, hp]
  · intro dec h
    constructor
    · simp [FormatPart.format_float, hty, h]
    · simp [FormatPart.format_float, hty, h, digitsAfterDot_fmtFixed]
  · intro h
    simp [FormatPart.format_float, hty, h]

/-- Witness for C2: a Number part with two decimal places renders the
float 7/4 with exactly two fractional digits. -/
theorem C2_witness :
    (FormatPart.new_number 2 false 0 1 none none).format_float (mkRat 7 4) =
      fmtFixed 2 (mkRat 7 4)
    ∧ digitsAfterDot ((FormatPart.new_number 2 false 0 1 none none).format_float
        (mkRat 7 4)) = 2 :=
  (C2_number_decimal_places (FormatPart.new_number 2 false 0 1 none none) (mkRat 7 4)
    (by decide)).2.1 2 (by decide)

end SpreadsheetOds
